import Mathlib

/-!
Verification of the EventSub Twitch chat bot (registry-based variant).

Shallow embedding of the Python sources:
  * `bot/commands/registry.py`  — `CommandRegistry.parse`, `dispatch`, `register`, `add_alias`
  * `bot/commands/builtins.py`  — `BuiltinCommands` handlers and their recent-output deques
  * `bot/handlers.py`           — `handle_chat_message`
  * `bot/eventsub_bot.py`       — receive-loop frame processing, `_on_chat_message`,
                                  `_is_channel_live` (same logic as `TwitchApi.is_live`)

Python strings are modelled as `List Char`; Python `None`-able values as `Option`;
raisable code returns `Except PyError`.  Whitespace is modelled by the ASCII
whitespace class (all inputs appearing in the claims are ASCII).  `str.lower()`
is modelled by `Char.toLower` per character (agrees with Python on ASCII).
-/

namespace TwitchBot

/-- Chat text, modelled as a list of characters (Python `str`). -/
abbrev Str := List Char

/-- Python exceptions that the embedded code can raise. -/
inductive PyError where
  | keyError (key : Str)
  | valueError
  | httpError
  | generic
deriving DecidableEq, Repr

/-- ASCII whitespace, the class used by Python `str.strip()` / `str.split()`
on the ASCII inputs relevant here. -/
def isPySpace (c : Char) : Bool :=
  c = ' ' || c = '\t' || c = '\n' || c = '\r' || c = '\x0b' || c = '\x0c'

/-- Python `str.strip()`: drop whitespace from both ends. -/
def pyStrip (s : Str) : Str :=
  ((s.dropWhile isPySpace).reverse.dropWhile isPySpace).reverse

/-- Python `str.lower()` (per-character, ASCII-faithful). -/
def pyLower (s : Str) : Str :=
  s.map Char.toLower

/-- Python truthiness of an optional string: `None` and `""` are falsy. -/
def truthyStr : Option Str → Bool
  | none => false
  | some s => !s.isEmpty

-- ---------------------------------------------------------------------------
-- bot/commands/registry.py
-- ---------------------------------------------------------------------------

/-- `CommandContext` from `registry.py`: immutable per-invocation context. -/
structure CommandContext where
  broadcaster_id : Str
  channel_login : Str
  user_login : Str
deriving DecidableEq, Repr

/-- Async handler signature `(ctx, arg) -> Optional[str]`; a handler may raise. -/
abbrev Handler := CommandContext → Str → Except PyError (Option Str)

/-- `CommandRegistry`: configured prefix tuple and the name → handler dict. -/
structure CommandRegistry where
  pfxs : List Str
  handlers : Str → Option Handler

/-- `CommandRegistry.register`: key is `name.strip().lower()`; empty key raises
`ValueError`; re-registration overwrites. -/
def register (reg : CommandRegistry) (name : Str) (h : Handler) :
    Except PyError CommandRegistry :=
  let key := pyLower (pyStrip name)
  if key.isEmpty then .error .valueError
  else .ok { reg with handlers := fun c => if c = key then some h else reg.handlers c }

/-- `CommandRegistry.add_alias`: raises `KeyError` when the target key is not
registered; otherwise binds the alias key to the identical handler. -/
def add_alias (reg : CommandRegistry) (alias_ : Str) (target : Str) :
    Except PyError CommandRegistry :=
  let target_key := pyLower (pyStrip target)
  let alias_key := pyLower (pyStrip alias_)
  match reg.handlers target_key with
  | none => .error (.keyError ("Target command not found: ".data ++ target))
  | some h =>
      .ok { reg with handlers := fun c => if c = alias_key then some h else reg.handlers c }

/-- `CommandRegistry.parse`: scan the prefix tuple in order for the first literal
prefix of `text`; strip the remainder; empty remainder is no-match; otherwise
split on the first whitespace run into a lower-cased command token and the
(un-lowercased) argument. -/
def parse (pfxs : List Str) (text : Str) : Option Str × Str :=
  if text.isEmpty then (none, [])
  else
    match pfxs.find? (fun p => p.isPrefixOf text) with
    | none => (none, [])
    | some pfx =>
        let rest := pyStrip (text.drop pfx.length)
        if rest.isEmpty then (none, [])
        else
          let tok := rest.takeWhile (fun c => !isPySpace c)
          let cmd := pyLower tok
          let arg := (rest.drop tok.length).dropWhile isPySpace
          (some cmd, arg)

/-- `CommandRegistry.dispatch`: parse; a falsy command or an unregistered command
yields `None`; a matched handler's result (or exception) is returned verbatim. -/
def dispatch (reg : CommandRegistry) (ctx : CommandContext) (text : Str) :
    Except PyError (Option Str) :=
  match parse reg.pfxs text with
  | (none, _) => .ok none
  | (some cmd, arg) =>
      if cmd.isEmpty then .ok none
      else
        match reg.handlers cmd with
        | none => .ok none
        | some h => h ctx arg

-- ---------------------------------------------------------------------------
-- bot/commands/builtins.py
-- ---------------------------------------------------------------------------

/-- Mutable state of `BuiltinCommands`: the four `deque(maxlen=max_history)`
recent-output buffers (insertion order, oldest first). -/
structure BuiltinState where
  max_history : Nat
  recent_jokes : List Str
  recent_stories : List Str
  recent_trivia : List Str
  recent_nicknames : List Str
deriving DecidableEq, Repr

/-- `collections.deque(maxlen=cap).append(x)`: append on the right, evicting
from the left whatever exceeds the capacity. -/
def dequeAppend (cap : Nat) (items : List Str) (x : Str) : List Str :=
  let l := items ++ [x]
  l.drop (l.length - cap)

/-- `BuiltinCommands._join_recent`: newline-joined recent items ("" if empty). -/
def joinRecent (items : List Str) : Str :=
  List.intercalate ['\n'] items

/-- Prompt built by `BuiltinCommands.joke`. -/
def jokePrompt (st : BuiltinState) : Str :=
  "You are a stand-up comic performing for Twitch chat. Deliver one fresh, original, Twitch-friendly joke (1–2 lines). Avoid stock jokes and anything mean-spirited. Do not repeat any of these recent jokes:\n".data
    ++ joinRecent st.recent_jokes

/-- Prompt built by `BuiltinCommands.nickname`. -/
def nicknamePrompt (st : BuiltinState) : Str :=
  "You are a playful nickname generator for Twitch chat. Output ONE short, creative, positive nickname only—no extra text. Avoid generic terms (buddy, pal) and anything rude. Do not repeat any of these recent nicknames:\n".data
    ++ joinRecent st.recent_nicknames

/-- Prompt built by `BuiltinCommands.story`. -/
def storyPrompt (st : BuiltinState) : Str :=
  "Write an original micro-story under 150 characters. Make it a complete moment (not advice or a quote). Avoid clichés. Do not repeat any of these recent stories:\n".data
    ++ joinRecent st.recent_stories

/-- Topic chosen by `BuiltinCommands.trivia`: the stripped argument if truthy,
otherwise the pseudo-random pick (passed in as `randTopic`). -/
def triviaTopic (randTopic : Str) (arg : Str) : Str :=
  if (pyStrip arg).isEmpty then randTopic else pyStrip arg

/-- Prompt built by `BuiltinCommands.trivia` for a given topic. -/
def triviaPrompt (topic : Str) (st : BuiltinState) : Str :=
  "Give ONE surprising ".data ++ topic
    ++ " trivia fact in ≤150 characters. Keep it Twitch-friendly and punchy. Make chat say 'Whoa!'. Do not repeat any of these:\n".data
    ++ joinRecent st.recent_trivia

/-- `BuiltinCommands.joke`: `ai` is `openai_service.chat`. The raw result is
returned verbatim (`None`, `""`, or the joke); only a truthy result is appended
to `recent_jokes`. -/
def joke (ai : Str → Option Str) (st : BuiltinState) : Option Str × BuiltinState :=
  match ai (jokePrompt st) with
  | none => (none, st)
  | some j =>
      if j.isEmpty then (some j, st)
      else (some j, { st with recent_jokes := dequeAppend st.max_history st.recent_jokes j })

/-- `BuiltinCommands.nickname`: a truthy result is appended and formatted; a
falsy result yields `None`. -/
def nickname (ai : Str → Option Str) (st : BuiltinState) : Option Str × BuiltinState :=
  match ai (nicknamePrompt st) with
  | none => (none, st)
  | some n =>
      if n.isEmpty then (none, st)
      else
        (some ("🎭 Your new nickname: ".data ++ n),
         { st with recent_nicknames := dequeAppend st.max_history st.recent_nicknames n })

/-- `BuiltinCommands.story`: a truthy result is appended and formatted; a falsy
result yields `None`. -/
def story (ai : Str → Option Str) (st : BuiltinState) : Option Str × BuiltinState :=
  match ai (storyPrompt st) with
  | none => (none, st)
  | some s =>
      if s.isEmpty then (none, st)
      else
        (some ("📖 ".data ++ s),
         { st with recent_stories := dequeAppend st.max_history st.recent_stories s })

/-- `BuiltinCommands.trivia`: topic from the argument or the random pick; a
truthy result is appended and formatted; a falsy result yields `None`. -/
def trivia (ai : Str → Option Str) (randTopic : Str) (arg : Str) (st : BuiltinState) :
    Option Str × BuiltinState :=
  match ai (triviaPrompt (triviaTopic randTopic arg) st) with
  | none => (none, st)
  | some f =>
      if f.isEmpty then (none, st)
      else
        (some ("🤓 ".data ++ f),
         { st with recent_trivia := dequeAppend st.max_history st.recent_trivia f })

/-- The literal usage hint returned by `BuiltinCommands.image` for an empty
description. -/
def imageUsageHint : Str :=
  "🖼️ Please provide a description! Example: `$image a cyberpunk ramen shop at night`".data

/-- The fixed size string passed to the image backend. -/
def imageSize : Str := "1024x1024".data

/-- `BuiltinCommands.image`: `backend` is `openai_service.image(desc, size)`
returning `(url_or_path, err)`.  The second component of the result records the
backend invocations (argument pairs), so "the backend was not called" is
`= []`. -/
def image (backend : Str → Str → Option Str × Option Str) (arg : Str) :
    Option Str × List (Str × Str) :=
  let desc := pyStrip arg
  if desc.isEmpty then (some imageUsageHint, [])
  else
    let r := backend desc imageSize
    let url_or_path := r.1
    let err := r.2
    let calls := [(desc, imageSize)]
    if truthyStr err then (some ("⚠️ ".data ++ err.getD []), calls)
    else if truthyStr url_or_path && "http".data.isPrefixOf (url_or_path.getD []) then
      (some ("🖼️ Here’s your creation: ".data ++ url_or_path.getD []), calls)
    else if truthyStr url_or_path then
      (some ("🖼️ Image saved locally: ".data ++ url_or_path.getD []), calls)
    else (some "⚠️ No image returned.".data, calls)

-- ---------------------------------------------------------------------------
-- bot/eventsub_bot.py `_is_channel_live` / bot/twitch_api.py `is_live`
-- ---------------------------------------------------------------------------

/-- Result of one `is_live` call: the returned value, the cache afterwards, and
whether the underlying `/streams` lookup was issued. -/
structure LiveCheckResult where
  value : Bool
  cache : Str → Option (Bool × ℚ)
  lookupPerformed : Bool

/-- `_is_channel_live` / `TwitchApi.is_live`: if a cache entry younger than 15
seconds exists, return it without a lookup; otherwise issue the lookup (its
outcome is `lookupResult`), store `(lookupResult, now)` wholesale, and return
the fresh value.  Timestamps are rationals standing in for `time.time()`. -/
def is_live (cache : Str → Option (Bool × ℚ)) (broadcaster_id : Str) (now : ℚ)
    (lookupResult : Bool) : LiveCheckResult :=
  match cache broadcaster_id with
  | some c =>
      if now - c.2 < 15 then ⟨c.1, cache, false⟩
      else
        ⟨lookupResult,
         fun k => if k = broadcaster_id then some (lookupResult, now) else cache k, true⟩
  | none =>
      ⟨lookupResult,
       fun k => if k = broadcaster_id then some (lookupResult, now) else cache k, true⟩

-- ---------------------------------------------------------------------------
-- bot/handlers.py
-- ---------------------------------------------------------------------------

/-- Observable outcome of one `handle_chat_message` call: whether the
live-suppression log line was printed, whether `registry.dispatch` was invoked,
whether its exception was caught and logged, the message passed to `api_send`
(if it was called), and whether a send exception was caught and logged. -/
structure HandleOutcome where
  suppressedLog : Bool
  dispatchCalled : Bool
  dispatchErrorLogged : Bool
  sentMessage : Option Str
  sendErrorLogged : Bool
deriving DecidableEq, Repr

/-- `handle_chat_message`: empty text returns immediately; with suppression on,
a live channel drops the message after a log line (`is_live_fn` is only awaited
when `suppress_when_live` is true, and its exception propagates); dispatch
exceptions are caught and logged; a truthy reply is sent, send exceptions are
caught and logged. -/
def handle_chat_message (reg : CommandRegistry) (broadcaster_id channel_login user_login : Str)
    (text : Str) (sendRes : Str → Except PyError Unit) (suppress_when_live : Bool)
    (isLiveRes : Except PyError Bool) : Except PyError HandleOutcome :=
  if text.isEmpty then .ok ⟨false, false, false, none, false⟩
  else
    match (if suppress_when_live then isLiveRes else .ok false) with
    | .error e => .error e
    | .ok live =>
        if live then .ok ⟨true, false, false, none, false⟩
        else
          let ctx : CommandContext := ⟨broadcaster_id, channel_login, user_login⟩
          match dispatch reg ctx text with
          | .error _ => .ok ⟨false, true, true, none, false⟩
          | .ok reply =>
              match reply with
              | none => .ok ⟨false, true, false, none, false⟩
              | some r =>
                  if r.isEmpty then .ok ⟨false, true, false, none, false⟩
                  else
                    match sendRes r with
                    | .ok _ => .ok ⟨false, true, false, some r, false⟩
                    | .error _ => .ok ⟨false, true, false, some r, true⟩

-- ---------------------------------------------------------------------------
-- bot/eventsub_bot.py receive loop
-- ---------------------------------------------------------------------------

/-- `event["message"]` sub-dict: may itself be missing the `text` key. -/
structure EventMessage where
  text : Option Str
deriving DecidableEq, Repr

/-- A `channel.chat.message` event dict; `none` models a missing key. -/
structure ChatEvent where
  broadcaster_user_login : Option Str
  broadcaster_user_id : Option Str
  chatter_user_login : Option Str
  message : Option EventMessage
deriving DecidableEq, Repr

/-- The `subscription` sub-dict of a notification payload. -/
structure SubscriptionInfo where
  type : Option Str
deriving DecidableEq, Repr

/-- The `payload` dict of a frame, as accessed by the notification branch. -/
structure NotificationPayload where
  subscription : Option SubscriptionInfo
  event : Option ChatEvent
deriving DecidableEq, Repr

/-- One inbound frame: `metadata.message_type` is read with `.get` (never
raises); `payload` is read with `[...]` (raises `KeyError` when missing). -/
structure Frame where
  metadata_message_type : Option Str
  payload : Option NotificationPayload
deriving DecidableEq, Repr

/-- Field extraction at the top of `_on_chat_message`, in source order: each
`event[...]` access raises `KeyError` with the offending key (what the
`except KeyError` branch logs) when the key is missing. -/
def extractChatFields (ev : ChatEvent) : Except PyError (Str × Str × Str × Str) :=
  match ev.broadcaster_user_login with
  | none => .error (.keyError "broadcaster_user_login".data)
  | some channel_login =>
    match ev.broadcaster_user_id with
    | none => .error (.keyError "broadcaster_user_id".data)
    | some bid =>
      match ev.chatter_user_login with
      | none => .error (.keyError "chatter_user_login".data)
      | some user_login =>
        match ev.message with
        | none => .error (.keyError "message".data)
        | some msg =>
          match msg.text with
          | none => .error (.keyError "text".data)
          | some text => .ok (channel_login, bid, user_login, text)

/-- Outcome of `_on_chat_message` on one event. -/
inductive OnChatResult where
  | droppedMalformed (missingKey : Str)
  | inactive
  | handled
deriving DecidableEq, Repr

/-- `_on_chat_message`: a `KeyError` from field extraction is caught, logged
with the offending key, and the event dropped; otherwise, when active, the
command bridge runs (its exceptions are not caught here). -/
def on_chat_message (active : Bool) (bridge : ChatEvent → Except PyError Unit)
    (ev : ChatEvent) : Except PyError OnChatResult :=
  match extractChatFields ev with
  | .error (.keyError k) => .ok (.droppedMalformed k)
  | .error e => .error e
  | .ok _ =>
      if active then
        match bridge ev with
        | .error e => .error e
        | .ok _ => .ok .handled
      else .ok .inactive

/-- What one iteration of the `while True` receive loop does with a frame. -/
inductive StepResult where
  | continueLoop
  | chat (r : OnChatResult)
deriving DecidableEq, Repr

/-- One iteration of the receive loop in `_run_ws_loop`: keepalive, revocation
and non-notification frames are skipped; for a notification frame the accesses
`f["payload"]["subscription"]["type"]` and `f["payload"]["event"]` raise
`KeyError` (uncaught, so the loop terminates) when those keys are missing;
a chat-message notification is handed to `_on_chat_message`. -/
def processFrame (active : Bool) (bridge : ChatEvent → Except PyError Unit)
    (f : Frame) : Except PyError StepResult :=
  if f.metadata_message_type = some "session_keepalive".data then .ok .continueLoop
  else if f.metadata_message_type = some "revocation".data then .ok .continueLoop
  else if f.metadata_message_type ≠ some "notification".data then .ok .continueLoop
  else
    match f.payload with
    | none => .error (.keyError "payload".data)
    | some p =>
      match p.subscription with
      | none => .error (.keyError "subscription".data)
      | some sub =>
        match sub.type with
        | none => .error (.keyError "type".data)
        | some sub_type =>
          if sub_type = "channel.chat.message".data then
            match p.event with
            | none => .error (.keyError "event".data)
            | some ev =>
              match on_chat_message active bridge ev with
              | .error e => .error e
              | .ok r => .ok (.chat r)
          else .ok .continueLoop

-- ---------------------------------------------------------------------------
-- Helper lemmas about the string model
-- ---------------------------------------------------------------------------

lemma dropWhile_cons_false (p : Char → Bool) (c : Char) (l : Str) (h : p c = false) :
    (c :: l).dropWhile p = c :: l := by
  rw [List.dropWhile_cons_of_neg (by simp [h])]

lemma dropWhile_head_false (p : Char → Bool) :
    ∀ (l : Str) (c : Char) (t : Str), l.dropWhile p = c :: t → p c = false := by
  intro l
  induction l with
  | nil => intro c t h; simp [List.dropWhile] at h
  | cons x xs ih =>
      intro c t h
      by_cases hx : p x = true
      · rw [List.dropWhile_cons_of_pos hx] at h
        exact ih c t h
      · rw [List.dropWhile_cons_of_neg hx] at h
        injection h with h1 _
        rw [← h1]
        simpa using hx

lemma exists_append_dropWhile (p : Char → Bool) :
    ∀ l : Str, ∃ s, s ++ l.dropWhile p = l := by
  intro l
  induction l with
  | nil => exact ⟨[], rfl⟩
  | cons x xs ih =>
      by_cases hx : p x = true
      · obtain ⟨s, hs⟩ := ih
        exact ⟨x :: s, by rw [List.dropWhile_cons_of_pos hx, List.cons_append, hs]⟩
      · exact ⟨[], by rw [List.dropWhile_cons_of_neg hx, List.nil_append]⟩

lemma pyStrip_head_not_space (l : Str) (c : Char) (t : Str)
    (h : pyStrip l = c :: t) : isPySpace c = false := by
  unfold pyStrip at h
  obtain ⟨s, hs⟩ := exists_append_dropWhile isPySpace (l.dropWhile isPySpace).reverse
  have hr : (l.dropWhile isPySpace).reverse.dropWhile isPySpace = (c :: t).reverse := by
    rw [← h, List.reverse_reverse]
  have hm2 : l.dropWhile isPySpace = (c :: t) ++ s.reverse := by
    have hsr : s ++ (c :: t).reverse = (l.dropWhile isPySpace).reverse := by rw [← hr, hs]
    calc l.dropWhile isPySpace
        = (l.dropWhile isPySpace).reverse.reverse := (List.reverse_reverse _).symm
      _ = (s ++ (c :: t).reverse).reverse := by rw [hsr]
      _ = (c :: t).reverse.reverse ++ s.reverse := by rw [List.reverse_append]
      _ = (c :: t) ++ s.reverse := by rw [List.reverse_reverse]
  exact dropWhile_head_false isPySpace l c (t ++ s.reverse) (by rw [hm2, List.cons_append])

lemma head_false_of_dropWhile_fix (p : Char → Bool) (l : Str) (hne : l ≠ [])
    (h : l.dropWhile p = l) : ∃ c t, l = c :: t ∧ p c = false := by
  cases l with
  | nil => exact absurd rfl hne
  | cons x xs =>
      refine ⟨x, xs, rfl, ?_⟩
      by_cases hx : p x = true
      · rw [List.dropWhile_cons_of_pos hx] at h
        have hlen : (xs.dropWhile p).length ≤ xs.length := (List.dropWhile_sublist _).length_le
        rw [h, List.length_cons] at hlen
        omega
      · simpa using hx

lemma pyStrip_eq_self (l : Str) (h1 : l.dropWhile isPySpace = l)
    (h2 : l.reverse.dropWhile isPySpace = l.reverse) : pyStrip l = l := by
  unfold pyStrip
  rw [h1, h2, List.reverse_reverse]

lemma all_space_pyStrip_nil (l : Str) (h : ∀ c ∈ l, isPySpace c = true) : pyStrip l = [] := by
  have h1 : l.dropWhile isPySpace = [] := List.dropWhile_eq_nil_iff.mpr (by simpa using h)
  unfold pyStrip
  rw [h1]
  simp

lemma takeWhile_append_stop (p : Char → Bool) (c : Char) (t : Str) (hc : p c = false) :
    ∀ (l : Str), (∀ x ∈ l, p x = true) → (l ++ c :: t).takeWhile p = l := by
  intro l
  induction l with
  | nil =>
      intro _
      rw [List.nil_append, List.takeWhile_cons_of_neg (by simp [hc])]
  | cons x xs ih =>
      intro hl
      rw [List.cons_append, List.takeWhile_cons_of_pos (hl x (by simp)),
        ih (fun y hy => hl y (by simp [hy]))]

lemma reverse_head_not_space (name : Str) (hne : name ≠ [])
    (hns : ∀ x ∈ name, isPySpace x = false) :
    ∃ y t, name.reverse = y :: t ∧ isPySpace y = false := by
  cases hrev : name.reverse with
  | nil =>
      rw [List.reverse_eq_nil_iff] at hrev
      exact absurd hrev hne
  | cons y t =>
      refine ⟨y, t, rfl, ?_⟩
      have hy : y ∈ name := by
        have : y ∈ name.reverse := by rw [hrev]; simp
        simpa using this
      exact hns y hy

lemma pyStrip_token_space (name : Str) (hne : name ≠ [])
    (hns : ∀ x ∈ name, isPySpace x = false) :
    pyStrip (name ++ [' ']) = name := by
  obtain ⟨c, cs, hcons⟩ := List.exists_cons_of_ne_nil hne
  obtain ⟨y, t, hrev, hy⟩ := reverse_head_not_space name hne hns
  unfold pyStrip
  have h1 : (name ++ [' ']).dropWhile isPySpace = name ++ [' '] := by
    rw [hcons, List.cons_append]
    exact dropWhile_cons_false _ _ _ (hns c (by rw [hcons]; simp))
  rw [h1]
  have h2 : (name ++ [' ']).reverse = ' ' :: name.reverse := by
    rw [List.reverse_append]
    simp
  rw [h2, List.dropWhile_cons_of_pos (by decide), hrev, dropWhile_cons_false _ _ _ hy, ← hrev,
    List.reverse_reverse]

lemma pyStrip_token_space_arg (name arg : Str) (hne : name ≠ [])
    (hns : ∀ x ∈ name, isPySpace x = false) (hargne : arg ≠ [])
    (ha2 : arg.reverse.dropWhile isPySpace = arg.reverse) :
    pyStrip (name ++ ' ' :: arg) = name ++ ' ' :: arg := by
  apply pyStrip_eq_self
  · obtain ⟨c, cs, hcons⟩ := List.exists_cons_of_ne_nil hne
    rw [hcons, List.cons_append]
    exact dropWhile_cons_false _ _ _ (hns c (by rw [hcons]; simp))
  · have hrevne : arg.reverse ≠ [] := by simpa [List.reverse_eq_nil_iff] using hargne
    obtain ⟨y, t, hy1, hy2⟩ := head_false_of_dropWhile_fix isPySpace arg.reverse hrevne ha2
    have hform : (name ++ ' ' :: arg).reverse = y :: (t ++ ' ' :: name.reverse) := by
      rw [List.reverse_append, List.reverse_cons, hy1]
      simp
    rw [hform, dropWhile_cons_false _ _ _ hy2, ← hform]

lemma parse_pfx_cmd_arg (pfxs : List Str) (pfx name arg : Str)
    (hfind : pfxs.find? (fun p => p.isPrefixOf (pfx ++ (name ++ ' ' :: arg))) = some pfx)
    (hne : name ≠ [])
    (hns : ∀ c ∈ name, isPySpace c = false)
    (hlow : pyLower name = name)
    (ha1 : arg.dropWhile isPySpace = arg)
    (ha2 : arg.reverse.dropWhile isPySpace = arg.reverse) :
    parse pfxs (pfx ++ (name ++ ' ' :: arg)) = (some name, arg) := by
  have htne : (pfx ++ (name ++ ' ' :: arg)).isEmpty = false := by
    simp
  have hdrop : (pfx ++ (name ++ ' ' :: arg)).drop pfx.length = name ++ ' ' :: arg :=
    List.drop_left _ _
  have htw : (name ++ ' ' :: arg).takeWhile (fun c => !isPySpace c) = name :=
    takeWhile_append_stop _ ' ' arg (by decide) name (fun x hx => by simp [hns x hx])
  unfold parse
  rw [htne]
  simp only [Bool.false_eq_true, if_false, hfind, hdrop]
  cases harg : arg with
  | nil =>
      subst harg
      have hstrip : pyStrip (name ++ ' ' :: ([] : Str)) = name := pyStrip_token_space name hne hns
      rw [hstrip]
      have hnemp : name.isEmpty = false := by
        simpa [List.isEmpty_iff] using hne
      rw [hnemp]
      simp only [Bool.false_eq_true, if_false]
      have htw2 : name.takeWhile (fun c => !isPySpace c) = name :=
        List.takeWhile_eq_self_iff.mpr (fun x hx => by simp [hns x hx])
      rw [htw2, hlow, List.drop_length]
      simp [List.dropWhile]
  | cons a as =>
      have hargne : arg ≠ [] := by rw [harg]; simp
      rw [← harg]
      have hstrip : pyStrip (name ++ ' ' :: arg) = name ++ ' ' :: arg :=
        pyStrip_token_space_arg name arg hne hns hargne ha2
      rw [hstrip]
      have hnemp : (name ++ ' ' :: arg).isEmpty = false := by simp
      rw [hnemp]
      simp only [Bool.false_eq_true, if_false]
      rw [htw, hlow, List.drop_left]
      rw [List.dropWhile_cons_of_pos (by decide), ha1]

lemma parse_pfx_cmd (pfxs : List Str) (pfx name : Str)
    (hfind : pfxs.find? (fun p => p.isPrefixOf (pfx ++ name)) = some pfx)
    (hne : name ≠ [])
    (hns : ∀ c ∈ name, isPySpace c = false)
    (hlow : pyLower name = name) :
    parse pfxs (pfx ++ name) = (some name, []) := by
  obtain ⟨c, cs, hcons⟩ := List.exists_cons_of_ne_nil hne
  obtain ⟨y, t, hrev, hy⟩ := reverse_head_not_space name hne hns
  have htne : (pfx ++ name).isEmpty = false := by
    simp [List.isEmpty_iff, hne]
  have hdrop : (pfx ++ name).drop pfx.length = name := List.drop_left _ _
  have hstrip : pyStrip name = name := by
    apply pyStrip_eq_self
    · rw [hcons]
      exact dropWhile_cons_false _ _ _ (hns c (by rw [hcons]; simp))
    · rw [hrev]
      rw [dropWhile_cons_false _ _ _ hy]
  have hnemp : name.isEmpty = false := by simpa [List.isEmpty_iff] using hne
  have htw2 : name.takeWhile (fun c => !isPySpace c) = name :=
    List.takeWhile_eq_self_iff.mpr (fun x hx => by simp [hns x hx])
  unfold parse
  rw [htne]
  simp only [Bool.false_eq_true, if_false, hfind, hdrop, hstrip, hnemp]
  rw [htw2, hlow, List.drop_length]
  simp [List.dropWhile]

lemma parse_cmd_ne_nil (pfxs : List Str) (text : Str) (c : Str) (a : Str)
    (h : parse pfxs text = (some c, a)) : c ≠ [] := by
  unfold parse at h
  by_cases hte : text.isEmpty = true
  · rw [if_pos hte] at h
    exact absurd h (by simp)
  · rw [if_neg hte] at h
    cases hfind : pfxs.find? (fun p => p.isPrefixOf text) with
    | none =>
        rw [hfind] at h
        exact absurd h (by simp)
    | some pfx =>
        rw [hfind] at h
        by_cases hre : (pyStrip (text.drop pfx.length)).isEmpty = true
        · simp only [hre, if_true] at h
          exact absurd h (by simp)
        · simp only [hre, if_false] at h
          cases hrest : pyStrip (text.drop pfx.length) with
          | nil => rw [hrest] at hre; simp at hre
          | cons y t =>
              have hy : isPySpace y = false := pyStrip_head_not_space _ _ _ hrest
              rw [hrest] at h
              rw [List.takeWhile_cons_of_pos (by simp [hy])] at h
              have hsome : some c = some (pyLower (y :: List.takeWhile (fun ch => !isPySpace ch) t)) := by
                rw [← (Prod.mk.injEq _ _ _ _).mp h |>.1]
              injection hsome with hc
              rw [hc]
              simp [pyLower]

-- ---------------------------------------------------------------------------
-- Claim theorems
-- ---------------------------------------------------------------------------

/-- C3: for a command-token-shaped registered name (non-empty, whitespace-free,
already lower-case, as produced by `register`) and an argument with no leading
or trailing whitespace, `parse(prefix + name + " " + arg)` returns `(name, arg)`
with exactly the separating whitespace consumed; the winning prefix is the first
configured prefix that is a literal prefix of the text (the `find?` hypothesis),
the command token is lower-cased and the argument un-lowercased. -/
theorem parse_registered_command_roundtrip (pfxs : List Str) (pfx name arg : Str)
    (hfind : pfxs.find? (fun p => p.isPrefixOf (pfx ++ (name ++ ' ' :: arg))) = some pfx)
    (hne : name ≠ [])
    (hns : ∀ c ∈ name, isPySpace c = false)
    (hlow : pyLower name = name)
    (ha1 : arg.dropWhile isPySpace = arg)
    (ha2 : arg.reverse.dropWhile isPySpace = arg.reverse) :
    parse pfxs (pfx ++ (name ++ ' ' :: arg)) = (some name, arg) :=
  parse_pfx_cmd_arg pfxs pfx name arg hfind hne hns hlow ha1 ha2

/-- Witness for C3 at a concrete input: prefixes `("$",)`, name `"joke"`,
argument `"a b"`. -/
theorem parse_registered_command_roundtrip_witness :
    parse [['$']] ("$".data ++ ("joke".data ++ ' ' :: "a b".data)) =
      (some "joke".data, "a b".data) :=
  parse_registered_command_roundtrip [['$']] "$".data "joke".data "a b".data
    (by decide) (by decide) (by decide) (by decide) (by decide) (by decide)

/-- C4 counterexample: with configured prefixes `("$", "$$")`, the text `"$$"`
is exactly a configured prefix, yet `parse` returns `("$", "")` rather than
`(None, "")`: the earlier, shorter prefix `"$"` wins and the remaining `"$"`
is a non-whitespace command token. -/
theorem parse_exact_pfx_counterexample :
    ['$', '$'] ∈ [['$'], ['$', '$']] ∧
      parse [['$'], ['$', '$']] ['$', '$'] = (some ['$'], []) := by
  decide

/-- C4 (amended): `parse(text)` returns `(None, "")` for every text that does
not start with any configured prefix, and for every text whose winning prefix
(the first configured prefix matching the text) is followed only by whitespace
— in particular a bare winning prefix.  A text equal to a configured prefix may
instead parse as a command when an earlier configured prefix is a proper prefix
of it. -/
theorem parse_no_match_amended (pfxs : List Str) (text : Str) :
    ((∀ p ∈ pfxs, p.isPrefixOf text = false) → parse pfxs text = (none, [])) ∧
    (∀ pfx, pfxs.find? (fun p => p.isPrefixOf text) = some pfx →
      (∀ c ∈ text.drop pfx.length, isPySpace c = true) → parse pfxs text = (none, [])) := by
  constructor
  · intro hnone
    unfold parse
    by_cases hte : text.isEmpty = true
    · rw [if_pos hte]
    · rw [if_neg hte]
      rw [List.find?_eq_none.mpr (fun p hp => by simp [hnone p hp])]
  · intro pfx hfind hsp
    unfold parse
    by_cases hte : text.isEmpty = true
    · rw [if_pos hte]
    · rw [if_neg hte]
      simp only [hfind]
      rw [all_space_pyStrip_nil _ hsp]
      simp

/-- Witness for C4's amended theorem: a prefix-free text, and a winning prefix
followed only by whitespace. -/
theorem parse_no_match_amended_witness :
    parse [['$']] "hello".data = (none, []) ∧
      parse [['$'], ['$', '$']] "$ ".data = (none, []) :=
  ⟨(parse_no_match_amended [['$']] "hello".data).1 (by decide),
   (parse_no_match_amended [['$'], ['$', '$']] "$ ".data).2 ['$'] (by decide) (by decide)⟩

/-- C2: for every context and text, `dispatch` yields no reply (`.ok none`)
without raising when `parse` finds no command or when the parsed command name is
not registered; when a handler matches, `dispatch` returns the handler's outcome
verbatim — including a `none` reply and any exception, which propagates to the
caller uncaught by the registry. -/
theorem dispatch_contract (reg : CommandRegistry) (ctx : CommandContext) (text : Str) :
    ((parse reg.pfxs text).1 = none → dispatch reg ctx text = .ok none) ∧
    (∀ c a, parse reg.pfxs text = (some c, a) → reg.handlers c = none →
      dispatch reg ctx text = .ok none) ∧
    (∀ c a h, parse reg.pfxs text = (some c, a) → reg.handlers c = some h →
      dispatch reg ctx text = h ctx a) := by
  refine ⟨?_, ?_, ?_⟩
  · intro h0
    unfold dispatch
    rcases hp : parse reg.pfxs text with ⟨f, s⟩
    rw [hp] at h0
    simp only at h0
    subst h0
    simp only []
  · intro c a hp hnone
    unfold dispatch
    rw [hp]
    simp only [hnone]
    have : c.isEmpty = false := by
      simpa [List.isEmpty_iff] using parse_cmd_ne_nil reg.pfxs text c a hp
    rw [this]
    simp
  · intro c a h hp hsome
    unfold dispatch
    rw [hp]
    have : c.isEmpty = false := by
      simpa [List.isEmpty_iff] using parse_cmd_ne_nil reg.pfxs text c a hp
    simp only [this, Bool.false_eq_true, if_false, hsome]

/-- A concrete handler used by the witnesses. -/
def demoHandler : Handler := fun _ _ => .ok (some "yo".data)

/-- A concrete registry with one registered command, used by the witnesses. -/
def demoReg : CommandRegistry :=
  ⟨[['$']], fun c => if c = "hi".data then some demoHandler else none⟩

/-- A concrete command context used by the witnesses. -/
def demoCtx : CommandContext := ⟨"1".data, "chan".data, "user".data⟩

/-- Witness for C2: a matched command returns the handler's result verbatim;
unprefixed text and an unregistered command both yield no reply. -/
theorem dispatch_contract_witness :
    dispatch demoReg demoCtx "$hi there".data = demoHandler demoCtx "there".data ∧
    dispatch demoReg demoCtx "hello".data = .ok none ∧
    dispatch demoReg demoCtx "$nope".data = .ok none :=
  ⟨(dispatch_contract demoReg demoCtx "$hi there".data).2.2 "hi".data "there".data demoHandler
      (by decide) rfl,
   (dispatch_contract demoReg demoCtx "hello".data).1 (by decide),
   (dispatch_contract demoReg demoCtx "$nope".data).2.1 "nope".data [] (by decide) rfl⟩

/-- C5: `add_alias(alias, target)` fails with a `KeyError` (unknown command)
when the target key is not registered — being a pure function, the input
registry is untouched on failure; after a successful `add_alias`, alias key and
target key map to the identical handler, so dispatching `prefix + alias` and
`prefix + target` yield identical results (hypotheses give the two keys the
shape of command tokens and make `prefix` the winning configured prefix). -/
theorem add_alias_contract (reg : CommandRegistry) (al tg : Str) :
    (reg.handlers (pyLower (pyStrip tg)) = none →
      add_alias reg al tg = .error (.keyError ("Target command not found: ".data ++ tg))) ∧
    (∀ reg', add_alias reg al tg = .ok reg' →
      reg'.handlers (pyLower (pyStrip al)) = reg'.handlers (pyLower (pyStrip tg)) ∧
      reg'.pfxs = reg.pfxs ∧
      (∀ (ctx : CommandContext) (pfx : Str),
        reg'.pfxs.find? (fun p => p.isPrefixOf (pfx ++ pyLower (pyStrip al))) = some pfx →
        reg'.pfxs.find? (fun p => p.isPrefixOf (pfx ++ pyLower (pyStrip tg))) = some pfx →
        pyLower (pyStrip al) ≠ [] → (∀ c ∈ pyLower (pyStrip al), isPySpace c = false) →
        pyLower (pyLower (pyStrip al)) = pyLower (pyStrip al) →
        pyLower (pyStrip tg) ≠ [] → (∀ c ∈ pyLower (pyStrip tg), isPySpace c = false) →
        pyLower (pyLower (pyStrip tg)) = pyLower (pyStrip tg) →
        dispatch reg' ctx (pfx ++ pyLower (pyStrip al)) =
          dispatch reg' ctx (pfx ++ pyLower (pyStrip tg)))) := by
  constructor
  · intro hnone
    unfold add_alias
    simp only [hnone]
  · intro reg' hok
    dsimp only [add_alias] at hok
    cases hm : reg.handlers (pyLower (pyStrip tg)) with
    | none => rw [hm] at hok; exact absurd hok (by simp)
    | some hh =>
        rw [hm] at hok
        simp only [Except.ok.injEq] at hok
        subst hok
        refine ⟨?_, rfl, ?_⟩
        · by_cases hk : pyLower (pyStrip tg) = pyLower (pyStrip al)
          · simp [hk]
          · simp [hk, hm]
        · intro ctx pfx hfa hft hane hans halow htne htns htlow
          dsimp only at hfa hft
          have hpa := parse_pfx_cmd reg.pfxs pfx _ hfa hane hans halow
          have hpt := parse_pfx_cmd reg.pfxs pfx _ hft htne htns htlow
          have hea : (pyLower (pyStrip al)).isEmpty = false := by
            simpa [List.isEmpty_iff] using hane
          have het : (pyLower (pyStrip tg)).isEmpty = false := by
            simpa [List.isEmpty_iff] using htne
          unfold dispatch
          dsimp only
          rw [hpa, hpt]
          simp only [hea, het, Bool.false_eq_true, if_false]
          by_cases hk : pyLower (pyStrip tg) = pyLower (pyStrip al)
          · simp [hk]
          · simp [hk, hm]

/-- Registry used by the C5 witness: `inputs` is registered. -/
def demoAliasReg : CommandRegistry :=
  ⟨[['$']], fun c => if c = "inputs".data then some demoHandler else none⟩

/-- The registry produced by `add_alias demoAliasReg "help" "inputs"`. -/
def demoAliasedReg : CommandRegistry :=
  { demoAliasReg with
    handlers := fun c =>
      if c = pyLower (pyStrip "help".data) then some demoHandler
      else demoAliasReg.handlers c }

/-- Witness for C5: after aliasing `help` → `inputs`, both keys map to the
identical handler and both dispatches agree. -/
theorem add_alias_contract_witness :
    demoAliasedReg.handlers (pyLower (pyStrip "help".data)) =
      demoAliasedReg.handlers (pyLower (pyStrip "inputs".data)) ∧
    dispatch demoAliasedReg demoCtx "$help".data =
      dispatch demoAliasedReg demoCtx "$inputs".data := by
  have h := (add_alias_contract demoAliasReg "help".data "inputs".data).2 demoAliasedReg rfl
  refine ⟨h.1, ?_⟩
  exact h.2.2 demoCtx [Char.ofNat 36] (by decide) (by decide) (by decide) (by decide)
    (by decide) (by decide) (by decide) (by decide)

/-- C6: a recent-output buffer never exceeds its capacity; appending below
capacity preserves all entries; appending at capacity evicts exactly the oldest
entry, preserving the order of the rest; and a failed backend call (`chat`
returning `None`) leaves every one of the four buffers unchanged, for each
generative handler. -/
theorem history_buffer_invariants (cap : Nat) (hist : List Str) (x : Str) :
    ((dequeAppend cap hist x).length ≤ cap) ∧
    (hist.length < cap → dequeAppend cap hist x = hist ++ [x]) ∧
    (0 < cap → hist.length = cap → dequeAppend cap hist x = hist.drop 1 ++ [x]) ∧
    (∀ (ai : Str → Option Str) (st : BuiltinState),
      (ai (jokePrompt st) = none → joke ai st = (none, st)) ∧
      (ai (storyPrompt st) = none → story ai st = (none, st)) ∧
      (ai (nicknamePrompt st) = none → nickname ai st = (none, st)) ∧
      (∀ rt a, ai (triviaPrompt (triviaTopic rt a) st) = none →
        trivia ai rt a st = (none, st))) := by
  refine ⟨?_, ?_, ?_, ?_⟩
  · unfold dequeAppend
    dsimp only
    rw [List.length_drop]
    simp only [List.length_append, List.length_cons, List.length_nil]
    omega
  · intro hlt
    unfold dequeAppend
    dsimp only
    have h0 : (hist ++ [x]).length - cap = 0 := by
      simp only [List.length_append, List.length_cons, List.length_nil]
      omega
    rw [h0, List.drop_zero]
  · intro hpos hlen
    unfold dequeAppend
    dsimp only
    have h1 : (hist ++ [x]).length - cap = 1 := by
      simp only [List.length_append, List.length_cons, List.length_nil]
      omega
    rw [h1, List.drop_append_of_le_length (by omega)]
  · intro ai st
    refine ⟨?_, ?_, ?_, ?_⟩
    · intro h
      unfold joke
      rw [h]
    · intro h
      unfold story
      rw [h]
    · intro h
      unfold nickname
      rw [h]
    · intro rt a h
      unfold trivia
      rw [h]

/-- Witness for C6 at capacity 3 (the spec's own test vector) and a failing
backend: pushing onto a full buffer keeps the last three in order, and a `None`
generation leaves the state untouched. -/
theorem history_buffer_invariants_witness :
    dequeAppend 3 ["a".data, "b".data, "c".data] "d".data =
      ["b".data, "c".data, "d".data] ∧
    joke (fun _ => none) ⟨10, [], [], [], []⟩ = (none, ⟨10, [], [], [], []⟩) := by
  constructor
  · have h := (history_buffer_invariants 3 ["a".data, "b".data, "c".data] "d".data).2.2.1
      (by decide) (by decide)
    rw [h]
    decide
  · exact ((history_buffer_invariants 0 [] []).2.2.2 (fun _ => none)
      ⟨10, [], [], [], []⟩).1 rfl

/-- C7: `is_live` consults the cache first — an entry younger than 15 seconds is
returned with no lookup and an unchanged cache; a missing or expired entry
triggers the lookup, replaces the entry wholesale with `(result, now)` and
returns the fresh result; two checks inside the window perform exactly one
lookup and the second returns the cached value, while a check past the window
performs a second lookup.  (Embeds `EventSubChatBot._is_channel_live` and the
identical `TwitchApi.is_live`.) -/
theorem is_live_cache_contract (cache : Str → Option (Bool × ℚ)) (b : Str) :
    (∀ v t now r, cache b = some (v, t) → now - t < 15 →
      is_live cache b now r = ⟨v, cache, false⟩) ∧
    (∀ v t now r, cache b = some (v, t) → ¬ now - t < 15 →
      is_live cache b now r = ⟨r, fun k => if k = b then some (r, now) else cache k, true⟩) ∧
    (∀ now r, cache b = none →
      is_live cache b now r = ⟨r, fun k => if k = b then some (r, now) else cache k, true⟩) ∧
    (∀ t0 t1 r0 r1, cache b = none → t1 - t0 < 15 →
      (is_live cache b t0 r0).lookupPerformed = true ∧
      is_live (is_live cache b t0 r0).cache b t1 r1 =
        ⟨r0, (is_live cache b t0 r0).cache, false⟩) ∧
    (∀ t0 t2 r0 r2, cache b = none → ¬ t2 - t0 < 15 →
      (is_live (is_live cache b t0 r0).cache b t2 r2).lookupPerformed = true) := by
  refine ⟨?_, ?_, ?_, ?_, ?_⟩
  · intro v t now r hc hlt
    unfold is_live
    rw [hc]
    simp [hlt]
  · intro v t now r hc hlt
    unfold is_live
    rw [hc]
    simp [hlt]
  · intro now r hc
    unfold is_live
    rw [hc]
  · intro t0 t1 r0 r1 hc hwin
    have h1 : is_live cache b t0 r0 =
        ⟨r0, fun k => if k = b then some (r0, t0) else cache k, true⟩ := by
      unfold is_live
      rw [hc]
    refine ⟨by rw [h1], ?_⟩
    rw [h1]
    unfold is_live
    simp [hwin]
  · intro t0 t2 r0 r2 hc hexp
    have h1 : is_live cache b t0 r0 =
        ⟨r0, fun k => if k = b then some (r0, t0) else cache k, true⟩ := by
      unfold is_live
      rw [hc]
    rw [h1]
    unfold is_live
    simp [hexp]

/-- Witness for C7: starting from an empty cache, a check at t=0 performs the
lookup, a second check at t=10 (inside the window) returns the cached value
with no lookup, and a check at t=20 (past the window) performs a lookup. -/
theorem is_live_cache_contract_witness :
    ((is_live (fun _ => none) "42".data 0 true).lookupPerformed = true ∧
     is_live (is_live (fun _ => none) "42".data 0 true).cache "42".data 10 false =
       ⟨true, (is_live (fun _ => none) "42".data 0 true).cache, false⟩) ∧
    (is_live (is_live (fun _ => none) "42".data 0 true).cache "42".data 20 false).lookupPerformed
      = true :=
  ⟨(is_live_cache_contract (fun _ => none) "42".data).2.2.2.1 0 10 true false rfl (by norm_num),
   (is_live_cache_contract (fun _ => none) "42".data).2.2.2.2 0 20 true false rfl (by norm_num)⟩

/-- C8: the image command returns the usage hint without calling the backend
when the argument is empty after trimming; otherwise it calls the backend once
with the stripped description and size `"1024x1024"`, and (in the source's
order) returns the error-prefixed reply when a truthy error is returned, the
hosted reply containing the result when it starts with `http`, the local-path
reply for a truthy non-URL result, and the generic no-image reply when neither
a truthy result nor a truthy error is present. -/
theorem image_command_contract (backend : Str → Str → Option Str × Option Str) (arg : Str) :
    ((pyStrip arg).isEmpty = true → image backend arg = (some imageUsageHint, [])) ∧
    ((pyStrip arg).isEmpty = false →
      ((image backend arg).2 = [(pyStrip arg, imageSize)] ∧
       (∀ res e, backend (pyStrip arg) imageSize = (res, some e) → e ≠ [] →
         (image backend arg).1 = some ("⚠️ ".data ++ e)) ∧
       (∀ res err, backend (pyStrip arg) imageSize = (res, err) → truthyStr err = false →
         ((∀ u, res = some u → "http".data.isPrefixOf u = true →
            (image backend arg).1 = some ("🖼️ Here’s your creation: ".data ++ u)) ∧
          (∀ u, res = some u → u ≠ [] → "http".data.isPrefixOf u = false →
            (image backend arg).1 = some ("🖼️ Image saved locally: ".data ++ u)) ∧
          (truthyStr res = false →
            (image backend arg).1 = some "⚠️ No image returned.".data))))) := by
  constructor
  · intro hemp
    unfold image
    dsimp only
    rw [hemp]
    simp
  · intro hne
    refine ⟨?_, ?_, ?_⟩
    · unfold image
      dsimp only
      simp only [hne, Bool.false_eq_true, if_false]
      by_cases h1 : truthyStr (backend (pyStrip arg) imageSize).2 = true
      · simp [h1]
      · simp only [Bool.not_eq_true] at h1
        by_cases h2 : truthyStr (backend (pyStrip arg) imageSize).1 = true
        · by_cases h3 : "http".data.isPrefixOf ((backend (pyStrip arg) imageSize).1.getD []) = true
          · simp [h1, h2, h3]
          · simp [h1, h2, h3]
        · simp [h1, h2]
    · intro res e hb he
      have htr : truthyStr (some e) = true := by
        simp [truthyStr, List.isEmpty_iff, he]
      unfold image
      dsimp only
      simp only [hne, Bool.false_eq_true, if_false, hb, htr, if_true]
      simp
    · intro res err hb herr
      refine ⟨?_, ?_, ?_⟩
      · intro u hu hpre
        have hu0 : u ≠ [] := by
          intro hcontra
          rw [hcontra] at hpre
          exact absurd hpre (by decide)
        have htr : truthyStr (some u) = true := by
          simp [truthyStr, List.isEmpty_iff, hu0]
        unfold image
        dsimp only
        simp only [hne, Bool.false_eq_true, if_false, hb, herr, hu]
        simp [htr, hpre]
      · intro u hu hune hpre
        have htr : truthyStr (some u) = true := by
          simp [truthyStr, List.isEmpty_iff, hune]
        unfold image
        dsimp only
        simp only [hne, Bool.false_eq_true, if_false, hb, herr, hu]
        simp [htr, hpre]
      · intro hres
        unfold image
        dsimp only
        simp only [hne, Bool.false_eq_true, if_false, hb, herr, hres]
        simp

/-- Witness for C8: the spec's two scenarios — `"$image "` (whitespace-only
description) yields the usage hint with zero backend calls, and a mocked
backend returning a hosted URL yields the reply containing that URL. -/
theorem image_command_contract_witness :
    image (fun _ _ => (some "http://example/x.png".data, none)) " ".data =
      (some imageUsageHint, []) ∧
    (image (fun _ _ => (some "http://example/x.png".data, none)) "a cat in space".data).1 =
      some ("🖼️ Here’s your creation: ".data ++ "http://example/x.png".data) := by
  constructor
  · exact (image_command_contract _ " ".data).1 (by decide)
  · exact (((image_command_contract (fun _ _ => (some "http://example/x.png".data, none))
      "a cat in space".data).2 (by decide)).2.2 (some "http://example/x.png".data) none rfl
      rfl).1 "http://example/x.png".data rfl (by decide)

/-- C1 counterexample: a notification frame with no `payload` key is not
logged-and-dropped — the frame-level access `f["payload"]` raises a `KeyError`
that propagates out of the receive loop, contradicting the claim that such a
frame is dropped and the loop continues. -/
theorem notification_missing_payload_raises :
    processFrame true (fun _ => .ok ()) ⟨some "notification".data, none⟩ =
      .error (.keyError "payload".data) := by
  rfl

/-- C1 (amended): a chat-message event with a missing field (e.g. missing
message text) is caught inside `_on_chat_message`: the offending key is logged,
the event is dropped, and processing the frame yields a normal (non-raising)
step so the receive loop continues to the next frame — for any bridge.
However (see the counterexample) a notification frame missing the
payload/subscription/type/event keys raises a `KeyError` that does propagate
out of the receive loop. -/
theorem malformed_chat_event_dropped (active : Bool)
    (bridge : ChatEvent → Except PyError Unit) (ev : ChatEvent) (k : Str)
    (hex : extractChatFields ev = .error (.keyError k)) :
    on_chat_message active bridge ev = .ok (.droppedMalformed k) ∧
    (∀ (f : Frame) (p : NotificationPayload) (sub : SubscriptionInfo),
      f.metadata_message_type = some "notification".data →
      f.payload = some p → p.subscription = some sub →
      sub.type = some "channel.chat.message".data → p.event = some ev →
      processFrame active bridge f = .ok (.chat (.droppedMalformed k))) := by
  have h1 : on_chat_message active bridge ev = .ok (.droppedMalformed k) := by
    unfold on_chat_message
    rw [hex]
  refine ⟨h1, ?_⟩
  intro f p sub hmt hp hsub hst hev
  unfold processFrame
  rw [hmt]
  rw [if_neg (by decide), if_neg (by decide), if_neg (by decide)]
  simp only [hp, hsub, hst, hev, h1]
  simp

/-- Witness for C1's amended theorem: an event whose `message` dict lacks
`text` is dropped with the offending key logged, both at the handler and at the
full-frame level. -/
theorem malformed_chat_event_dropped_witness :
    on_chat_message true (fun _ => .ok ())
      ⟨some "chan".data, some "1".data, some "user".data, some ⟨none⟩⟩ =
      .ok (.droppedMalformed "text".data) ∧
    processFrame true (fun _ => .ok ())
      ⟨some "notification".data,
       some ⟨some ⟨some "channel.chat.message".data⟩,
             some ⟨some "chan".data, some "1".data, some "user".data, some ⟨none⟩⟩⟩⟩ =
      .ok (.chat (.droppedMalformed "text".data)) := by
  have h := malformed_chat_event_dropped true (fun _ => .ok ())
      ⟨some "chan".data, some "1".data, some "user".data, some ⟨none⟩⟩ "text".data rfl
  exact ⟨h.1, h.2 _ _ _ rfl rfl rfl rfl rfl⟩

/-- C9: with live suppression enabled and the live check reporting live, a
non-empty chat message is dropped before command processing: dispatch is never
invoked, no send call occurs, and only the suppression log line is produced. -/
theorem live_suppression_drops_message (reg : CommandRegistry)
    (b cl ul text : Str) (send : Str → Except PyError Unit) (hne : text.isEmpty = false) :
    handle_chat_message reg b cl ul text send true (.ok true) =
      .ok ⟨true, false, false, none, false⟩ := by
  unfold handle_chat_message
  rw [hne]
  rfl

/-- Witness for C9 at a concrete message. -/
theorem live_suppression_drops_message_witness :
    handle_chat_message demoReg "1".data "chan".data "user".data "$hi".data
      (fun _ => .ok ()) true (.ok true) = .ok ⟨true, false, false, none, false⟩ :=
  live_suppression_drops_message demoReg "1".data "chan".data "user".data "$hi".data
    (fun _ => .ok ()) rfl

/-- C10: the reply sender is called only when dispatch produced a non-empty
string — whenever `handle_chat_message` records a sent message, dispatch
returned exactly that non-empty reply; a `None` reply, an empty-string reply,
and empty incoming text all result in no send call; and a generative handler
(`joke`) returns the backend's empty text verbatim without appending it to its
history. -/
theorem reply_sent_only_when_nonempty (reg : CommandRegistry)
    (b cl ul text : Str) (send : Str → Except PyError Unit)
    (suppress : Bool) (isLiveRes : Except PyError Bool) :
    (∀ o m, handle_chat_message reg b cl ul text send suppress isLiveRes = .ok o →
      o.sentMessage = some m →
      dispatch reg ⟨b, cl, ul⟩ text = .ok (some m) ∧ m ≠ []) ∧
    (text = [] → handle_chat_message reg b cl ul text send suppress isLiveRes =
      .ok ⟨false, false, false, none, false⟩) ∧
    (dispatch reg ⟨b, cl, ul⟩ text = .ok none →
      ∀ o, handle_chat_message reg b cl ul text send suppress isLiveRes = .ok o →
        o.sentMessage = none) ∧
    (dispatch reg ⟨b, cl, ul⟩ text = .ok (some []) →
      ∀ o, handle_chat_message reg b cl ul text send suppress isLiveRes = .ok o →
        o.sentMessage = none) ∧
    (∀ (ai : Str → Option Str) (st : BuiltinState),
      ai (jokePrompt st) = some [] → joke ai st = (some [], st)) := by
  have main : ∀ o m, handle_chat_message reg b cl ul text send suppress isLiveRes = .ok o →
      o.sentMessage = some m →
      dispatch reg ⟨b, cl, ul⟩ text = .ok (some m) ∧ m ≠ [] := by
    intro o m hh hm
    unfold handle_chat_message at hh
    by_cases hte : text.isEmpty = true
    · rw [if_pos hte] at hh
      simp only [Except.ok.injEq] at hh
      subst hh
      simp at hm
    · rw [if_neg hte] at hh
      cases hlv : (if suppress then isLiveRes else Except.ok false) with
      | error e =>
          rw [hlv] at hh
          exact absurd hh (by simp)
      | ok live =>
          simp only [hlv] at hh
          cases live with
          | true =>
              rw [if_pos rfl] at hh
              simp only [Except.ok.injEq] at hh
              subst hh
              simp at hm
          | false =>
              rw [if_neg (by decide : ¬(false = true))] at hh
              cases hd : dispatch reg ⟨b, cl, ul⟩ text with
              | error e =>
                  simp only [hd] at hh
                  simp only [Except.ok.injEq] at hh
                  subst hh
                  simp at hm
              | ok reply =>
                  simp only [hd] at hh
                  cases reply with
                  | none =>
                      simp only [Except.ok.injEq] at hh
                      subst hh
                      simp at hm
                  | some r =>
                      dsimp only at hh
                      by_cases hre : r.isEmpty = true
                      · rw [if_pos hre] at hh
                        simp only [Except.ok.injEq] at hh
                        subst hh
                        simp at hm
                      · rw [if_neg hre] at hh
                        have hrne : r ≠ [] := by
                          simpa [List.isEmpty_iff] using hre
                        cases hs : send r with
                        | ok u =>
                            simp only [hs] at hh
                            simp only [Except.ok.injEq] at hh
                            subst hh
                            simp only at hm
                            injection hm with hm1
                            subst hm1
                            exact ⟨rfl, hrne⟩
                        | error e =>
                            simp only [hs] at hh
                            simp only [Except.ok.injEq] at hh
                            subst hh
                            simp only at hm
                            injection hm with hm1
                            subst hm1
                            exact ⟨rfl, hrne⟩
  refine ⟨main, ?_, ?_, ?_, ?_⟩
  · intro h
    subst h
    rfl
  · intro hd o ho
    cases hsent : o.sentMessage with
    | none => rfl
    | some m =>
        obtain ⟨hdisp, _⟩ := main o m ho hsent
        rw [hd] at hdisp
        exact absurd hdisp (by simp)
  · intro hd o ho
    cases hsent : o.sentMessage with
    | none => rfl
    | some m =>
        obtain ⟨hdisp, hmne⟩ := main o m ho hsent
        rw [hd] at hdisp
        simp only [Except.ok.injEq, Option.some.injEq] at hdisp
        exact absurd hdisp.symm hmne
  · intro ai st h
    unfold joke
    rw [h]
    simp

/-- Witness for C10: a no-match dispatch sends nothing, empty text sends
nothing, and a `""`-returning backend leaves the joke history unchanged while
the empty reply is returned verbatim. -/
theorem reply_sent_only_when_nonempty_witness :
    ((⟨false, true, false, none, false⟩ : HandleOutcome).sentMessage = none) ∧
    (handle_chat_message demoReg "1".data "chan".data "user".data []
      (fun _ => .ok ()) false (.ok false) = .ok ⟨false, false, false, none, false⟩) ∧
    joke (fun _ => some []) ⟨10, [], [], [], []⟩ = (some [], ⟨10, [], [], [], []⟩) :=
  ⟨(reply_sent_only_when_nonempty demoReg "1".data "chan".data "user".data "hello".data
      (fun _ => .ok ()) false (.ok false)).2.2.1 rfl ⟨false, true, false, none, false⟩ rfl,
   (reply_sent_only_when_nonempty demoReg "1".data "chan".data "user".data []
      (fun _ => .ok ()) false (.ok false)).2.1 rfl,
   (reply_sent_only_when_nonempty demoReg "1".data "chan".data "user".data "x".data
      (fun _ => .ok ()) false (.ok false)).2.2.2.2 (fun _ => some []) ⟨10, [], [], [], []⟩ rfl⟩

end TwitchBot
